import Mathlib

/-!
Verification development for the retrieval-and-reflection orchestration
pipeline of `src/chains.py` (class `UnstructuredRAG`): a shallow embedding of
its data model and control flow, followed by theorems settling the frozen
claims about query formulation, history truncation, prompt assembly, the
shared reflection budget, failure classification and the shape of every
return path.

Conventions of the embedding:
- Python exceptions become the inductive `Exc`; a `try` body that can fail is
  threaded through `Except Exc`; the `except` clauses become matches on `Exc`.
- Upstream collaborators (vector store retrieval, reranker, query-rewriter
  LLM, generation LLM) are fields of an environment record holding each
  call's outcome, so one environment fixes one execution of the pipeline.
- A function's observable outcome is `PResult`: a returned value, a raised
  exception, or Python's implicit `None` return (an `except` clause that
  falls through without `return`).
- `src/reflection.py` and `src/utils.py` are not part of the staged source;
  the handful of helpers the pipeline imports from them are modelled from the
  spec and marked as such in their doc comments.
-/

/-- A chat message as `chains.py` consumes it: objects with `.role` and
`.content` string attributes. -/
structure Message where
  role : String
  content : String
deriving DecidableEq, Repr

/-- A retrieved document: a content chunk plus source metadata. Relevance
scores are not represented (no claim depends on score values). -/
structure Doc where
  text : String
  source : String
deriving DecidableEq, Repr

/-- The exception taxonomy the `except` clauses of `chains.py` distinguish:
`requests.ConnectTimeout`, `requests.exceptions.ConnectionError`, the custom
`APIError(message, code)` (default code 400), `ValueError`, and any other
`Exception`. -/
inductive Exc where
  | connectTimeout (msg : String)
  | connectionError (msg : String)
  | apiError (msg : String) (code : Nat)
  | valueError (msg : String)
  | other (msg : String)
deriving DecidableEq, Repr

/-- Python `str(e)` on an exception: its message. -/
def Exc.str : Exc → String
  | .connectTimeout m => m
  | .connectionError m => m
  | .apiError m _ => m
  | .valueError m => m
  | .other m => m

/-- Outcome of one pipeline entry point: a returned value, a raised
exception, or Python's implicit `None` (an except clause without `return`). -/
inductive PResult (α : Type) where
  | returned (v : α)
  | raised (e : Exc)
  | noneRet
deriving DecidableEq, Repr

/-- Whether `xs` starts with `pre` (over characters). -/
def listStartsWith : List Char → List Char → Bool
  | [], _ => true
  | _ :: _, [] => false
  | p :: ps, c :: cs => p == c && listStartsWith ps cs

/-- Whether `needle` occurs inside `hay`, as Python `needle in hay`. -/
def listContainsSeq (needle : List Char) : List Char → Bool
  | [] => needle.isEmpty
  | c :: cs => listStartsWith needle (c :: cs) || listContainsSeq needle cs

/-- Python substring test `needle in hay` on strings. -/
def strContains (hay needle : String) : Bool :=
  listContainsSeq needle.data hay.data

/-- The single-quote character (written by code point to keep the source
free of quote-literal pitfalls). -/
def squoteChar : Char := Char.ofNat 39

/-- The double-quote character. -/
def dquoteChar : Char := Char.ofNat 34

/-- Python `s.replace('"', "'")`: every double quote becomes a single
quote (same-length replacement, so a character map). -/
def pyReplaceDq (s : String) : String :=
  String.mk (s.data.map fun c => if c = dquoteChar then squoteChar else c)

/-- The two-character string of two single quotes, the empty-quoted
placeholder the rewritten-query check compares against. -/
def twoSingleQuotes : String := String.mk [squoteChar, squoteChar]

/-- The guard of `chains.py:569` and `chains.py:761` on the rewritten query:
`retriever_query.replace('"', "'") == "''" or len(retriever_query) == 0`. -/
def emptyQueryCheck (rq : String) : Bool :=
  pyReplaceDq rq == twoSingleQuotes || rq.length == 0

/-- The marker pair of the forbidden / invalid-auth branch: the handler
requires both `"[403] Forbidden"` and `"Invalid UAM response"` in `str(e)`. -/
def forbiddenMarker (m : String) : Bool :=
  strContains m "[403] Forbidden" && strContains m "Invalid UAM response"

/-- The not-found branch marker `"[404] Not Found"`. -/
def notFoundMarker (m : String) : Bool :=
  strContains m "[404] Not Found"

/-- Python slice `xs[-(n):]` as the history truncation uses it
(`history_count = K * 2 * -1; xs = xs[history_count:]`): the last `n`
elements, except that `n = 0` gives slice `[0:]`, the whole list. -/
def pySliceLast (n : Nat) (xs : List α) : List α :=
  if n = 0 then xs else xs.drop (xs.length - n)

/-- The fixed vGPU parameter JSON schema the `StructuredResponse.__init__`
installs whenever the caller passes no `parameters`; every construction in
`chains.py` omits it, so the value is always this default and no claim
inspects its content. -/
inductive VgpuParams where
  | defaultSchema
deriving DecidableEq, Repr

/-- The pydantic model `StructuredResponse` of `chains.py:48`: fields
`title`, `description` and `parameters`. -/
structure StructuredResponse where
  title : String
  description : String
  parameters : VgpuParams
deriving DecidableEq, Repr

/-- The keyword arguments call sites of `chains.py` pass to
`StructuredResponse(...)`. `response`, `sources_used` and `reasoning` are not
fields of the model; pydantic's default `extra` policy ignores them, so they
never reach the constructed object. -/
structure SRKwargs where
  title : Option String := none
  description : Option String := none
  parameters : Option VgpuParams := none
  response : Option String := none
  sources_used : Option Bool := none
  reasoning : Option String := none
deriving DecidableEq, Repr

/-- The generic default description `StructuredResponse.__init__` installs
when no `description` keyword is given (`chains.py:143`). -/
def defaultSRDescription : String :=
  "Generate the recommended vGPU configuration based on workload requirements and hardware specs."

/-- `StructuredResponse(**data)` per the custom `__init__` of
`chains.py:62`: defaults for `title`, `description` and `parameters` when
absent; keywords that are not model fields are dropped by pydantic. -/
def mkStructuredResponse (kw : SRKwargs) : StructuredResponse :=
  { title := kw.title.getD "generate_vgpu_config"
    description := kw.description.getD defaultSRDescription
    parameters := kw.parameters.getD VgpuParams.defaultSchema }

/-- `json.dumps(r.model_dump(), ...)`: the serialized JSON object for a
`StructuredResponse` (whitespace and string escaping of the real dump are
immaterial; the field names and values are kept). -/
def serializeSR (r : StructuredResponse) : String :=
  "\x7b\"title\": \"" ++ r.title ++ "\", \"description\": \"" ++ r.description ++
    "\", \"parameters\": \"vgpu parameter schema\"\x7d"

/-- Python `str(model)` on a pydantic object, used at `chains.py:433` and
`chains.py:631` because the model has no `response` attribute; its exact text
only seeds the groundedness check, which no claim inspects textually. -/
def pyStrSR (r : StructuredResponse) : String :=
  "title=" ++ r.title ++ " description=" ++ r.description

/-- Modelled from the spec: `format_document_with_source` lives in
`src/utils.py`, which is not among the staged files; spec section 4.5 says each
context document is rendered with its source attribution. -/
def format_document_with_source (d : Doc) : String :=
  d.text ++ " (source: " ++ d.source ++ ")"

/-- Modelled from the spec: `normalize_relevance_scores` lives in
`src/utils.py`, which is not among the staged files; spec section 4.3 says it
linearly rescales per-document relevance scores into the range zero to one.
Scores are not represented in this embedding, so on the document list itself
it is the identity. -/
def normalize_relevance_scores (docs : List Doc) : List Doc := docs

/-- Result of the context-relevance loop: the context kept, the relevance
verdict, and the budget counter's final `used`. -/
structure RelevanceResult where
  ctx : List Doc
  isRel : Bool
  used : Nat
deriving DecidableEq, Repr

/-- Modelled from the spec: the recursion of the context-relevance loop of
`check_context_relevance` (`src/reflection.py`, not among the staged files),
spec section 4.4. At each attempt the current context is judged; acceptance
exits with the budget untouched, a failed judgment increments `used` and
retries while budget remains (`fuel` is the remaining budget
`max_iterations - used`), and an exhausted budget exits with the most recent
context and a negative verdict. -/
def relGo (judge : Nat → Bool) (ctxs : Nat → List Doc) (used : Nat) : Nat → RelevanceResult
  | 0 => { ctx := ctxs used, isRel := judge used, used := used }
  | fuel + 1 =>
    if judge used then { ctx := ctxs used, isRel := true, used := used }
    else relGo judge ctxs (used + 1) fuel

/-- Modelled from the spec: `check_context_relevance(query, retriever,
ranker, reflection_counter)` of `src/reflection.py` (not among the staged
files): run the relevance loop with the full budget `M`, starting from a
fresh counter (`used = 0`). `judge n` is the relevance verdict of attempt
`n`, `ctxs n` the (already retrieved, optionally reranked) context of
attempt `n`. -/
def check_context_relevance (judge : Nat → Bool) (ctxs : Nat → List Doc) (M : Nat) : RelevanceResult :=
  relGo judge ctxs 0 M

/-- Result of the response-groundedness loop: the final answer text, the
verdict, the counter's final `used`, and how many generation-evaluation
cycles ran. -/
structure GroundResult where
  text : String
  grounded : Bool
  used : Nat
  cycles : Nat
deriving DecidableEq, Repr

/-- Modelled from the spec: the recursion of the response-groundedness loop of
`check_response_groundedness` (`src/reflection.py`, not among the staged
files), spec section 4.4. `answers i` is the candidate answer after `i`
regenerations (`answers 0` the first-pass answer handed in by the caller);
each evaluation is one cycle; a failed evaluation regenerates while budget
remains (`fuel` is `max_iterations - used`), and an exhausted budget accepts
the last candidate with a negative verdict. -/
def grdGo (judge : Nat → Bool) (answers : Nat → String) (used aIdx cycles : Nat) : Nat → GroundResult
  | 0 => { text := answers aIdx, grounded := judge aIdx, used := used, cycles := cycles + 1 }
  | fuel + 1 =>
    if judge aIdx then { text := answers aIdx, grounded := true, used := used, cycles := cycles + 1 }
    else grdGo judge answers (used + 1) (aIdx + 1) (cycles + 1) fuel

/-- Modelled from the spec: `check_response_groundedness(response, docs,
reflection_counter)` of `src/reflection.py` (not among the staged files):
run the groundedness loop on a counter that already consumed `u` of the `M`
iterations, so the remaining fuel is `M - u`. -/
def check_response_groundedness (judge : Nat → Bool) (answers : Nat → String) (M u : Nat) : GroundResult :=
  grdGo judge answers u 0 0 (M - u)

/-- The substring `"llama-3.3-nemotron-super-49b" in str(kwargs.get("model"))`
that selects the model-specific reasoning-mode directive and primer. -/
def nemotronTarget (model : String) : Bool :=
  strContains model "llama-3.3-nemotron-super-49b"

/-- The system prompt replacement when the nemotron family is targeted:
`"detailed thinking on"` or `"detailed thinking off"` per the
`ENABLE_NEMOTRON_THINKING` environment flag. -/
def nemotronDirective (thinking : Bool) : String :=
  if thinking then "detailed thinking on" else "detailed thinking off"

/-- The model-specific primer message: for the nemotron family the prompt
template is re-sent as a user message (`user_message += [("user",
template)]`), otherwise nothing. -/
def nemotronPrimer (model template : String) : List (String × String) :=
  if nemotronTarget model then [("user", template)] else []

/-- The fold of `for message in chat_history: if message.role == "system":
system_prompt = system_prompt + " " + message.content`. -/
def foldSystemTurns (hist : List Message) (sys0 : String) : String :=
  hist.foldl (fun s m => if m.role == "system" then s ++ " " ++ m.content else s) sys0

/-- The fold collecting non-system turns into `conversation_history`, in
order, as `(role, content)` pairs. -/
def nonSystemPairsFold (hist : List Message) : List (String × String) :=
  hist.foldl (fun acc m => if m.role == "system" then acc else acc ++ [(m.role, m.content)]) []

/-- The non-system turns of a history as `(role, content)` pairs, the
filter-map form used to characterize `nonSystemPairsFold`. -/
def nonSystemPairs (hist : List Message) : List (String × String) :=
  (hist.filter fun m => !(m.role == "system")).map fun m => (m.role, m.content)

/-- The user-authored turn contents of a history, in order
(`[msg.content for msg in msgs if msg.role == "user"]`). -/
def userContents (msgs : List Message) : List String :=
  (msgs.filter fun m => m.role == "user").map Message.content

/-- The system prompt of `rag_chain_with_multiturn` (`chains.py:528` to
`chains.py:544`): the RAG template, replaced by the reasoning directive when
the nemotron family is targeted, then the history's system turns appended. -/
def multiturnSystemPrompt (model : String) (thinking : Bool) (template : String) (hist : List Message) : String :=
  foldSystemTurns hist (if nemotronTarget model then nemotronDirective thinking else template)

/-- The prompt message sequence `rag_chain_with_multiturn` assembles
(`chains.py:528` to `chains.py:548` and `chains.py:578` to `chains.py:582`):
`message = system_message + conversation_history + user_message` where
`user_message` is the optional nemotron primer followed by the
`"{question}"` placeholder. -/
def multiturnMessages (model : String) (thinking : Bool) (template : String) (hist : List Message) : List (String × String) :=
  ("system", multiturnSystemPrompt model thinking template hist) ::
    (nonSystemPairsFold hist ++ (nemotronPrimer model template ++ [("user", "{question}")]))

/-- The prompt message sequence of single-turn `rag_chain` (`chains.py:361`
to `chains.py:385`): identical except that `conversation_history` stays
empty, because its history loop folds system turns only and drops every
other turn. -/
def ragMessages (model : String) (thinking : Bool) (template : String) (hist : List Message) : List (String × String) :=
  ("system", multiturnSystemPrompt model thinking template hist) ::
    (nemotronPrimer model template ++ [("user", "{question}")])

/-- The prompt message sequence of `llm_chain` (`chains.py:241` to
`chains.py:271`): `message = system_message + nemotron_message +
conversation_history + user_message`, the user question included only when
the query is non-empty. -/
def llmMessages (model : String) (thinking : Bool) (template : String) (hist : List Message) (q : String) : List (String × String) :=
  ("system", multiturnSystemPrompt model thinking template hist) ::
    (nemotronPrimer model template ++ nonSystemPairsFold hist ++
      (if q == "" then [] else [("user", "{question}")]))

/-- Environment of one `ingest_docs` call: the outcome of the try body
(load, split, `get_vectorstore`, `add_documents`). -/
structure IngestEnv where
  bodyOutcome : Except Exc Unit

/-- Environment of one `llm_chain` call. `setupOutcome` is the outcome of
`get_llm` and prompt-template construction inside the outer try;
`generateOutcome` the structured `chain.invoke` inside the inner generator,
as a function of the assembled prompt messages and the question. -/
structure LlmEnv where
  query : String
  chat_history : List Message
  modelName : String
  thinkingEnv : Bool
  chatTemplate : String
  setupOutcome : Except Exc Unit
  generateOutcome : List (String × String) → String → Except Exc StructuredResponse

/-- Environment of one `rag_chain` / `rag_chain_with_multiturn` call:
request arguments, the configuration flags and environment variables read,
and the outcome of each outbound collaborator call. -/
structure ChainEnv where
  query : String
  chat_history : List Message
  modelName : String
  thinkingEnv : Bool
  ragTemplate : String
  enableMultiturn : Bool
  enableReranker : Bool
  rankerAvailable : Bool
  enableQueryRewriting : Bool
  historyK : Nat
  enableReflection : Bool
  maxReflectionLoop : Nat
  vsAvailable : Bool
  reranker_top_k : Nat
  vdb_top_k : Nat
  rewriteOutcome : List (String × String) → String → Except Exc String
  retrieveOutcome : String → Except Exc (List Doc)
  rerankOutcome : String → List Doc → Except Exc (List Doc)
  generateOutcome : List (String × String) → String → List String → Except Exc StructuredResponse
  relevanceJudge : Nat → Bool
  relevanceContexts : Nat → List Doc
  groundJudge : Nat → Bool
  regenAnswers : Nat → String

/-- Environment of one `document_search` call. -/
structure SearchEnv where
  content : String
  messages : List Message
  enableReranker : Bool
  rankerAvailable : Bool
  enableQueryRewriting : Bool
  historyK : Nat
  enableReflection : Bool
  maxReflectionLoop : Nat
  vsAvailable : Bool
  reranker_top_k : Nat
  vdb_top_k : Nat
  rewriteOutcome : List (String × String) → String → Except Exc String
  retrieveOutcome : String → Except Exc (List Doc)
  rerankOutcome : String → List Doc → Except Exc (List Doc)
  relevanceJudge : Nat → Bool
  relevanceContexts : Nat → List Doc

/-- What a `rag_chain` / `rag_chain_with_multiturn` call hands back when it
does return: the success paths return the pair `(stream, context_to_show)`,
the handler paths return only the one-element stream. -/
inductive ChainValue where
  | pairV (stream : List String) (context : List Doc)
  | bareV (stream : List String)
deriving DecidableEq, Repr

/-- Observable outcome of one chain call, with the execution trace the
claims inspect: which exception (if any) reached the outer handlers, the
relevance loop's final `used` (`none` when the loop never ran), the
counter's total `used` at exit, the number of groundedness
generation-evaluation cycles, and whether the retriever was invoked. -/
structure ChainOut where
  result : PResult ChainValue
  innerExc : Option Exc
  usedRel : Option Nat
  totalUsed : Nat
  groundCycles : Nat
  retrieverCalled : Bool
deriving DecidableEq, Repr

/-- Observable outcome of one `document_search` call. -/
structure SearchOut where
  result : PResult (List Doc)
  retrieverCalled : Bool
deriving DecidableEq, Repr

/-- The message of the `APIError` both generation chains raise when
`get_vectorstore` yields `None` (`chains.py:353` and `chains.py:515`). -/
def vsUninitMsg : String :=
  "Vector store not initialized properly. Please check if the vector DB is up and running."

/-- The timeout description both chains put in their `ConnectTimeout`
handler (`chains.py:461` and `chains.py:666`). -/
def chainTimeoutText : String :=
  "Connection timed out while making a request to the NIM endpoint. Verify if the NIM server is available."

/-- The forbidden / invalid-auth description of the chain handlers. -/
def chainAuthText : String :=
  "Authentication or permission error: Verify the validity and permissions of your NVIDIA API key."

/-- The not-found description of the chain handlers. -/
def chainNotFoundText : String :=
  "Please verify the API endpoint and your payload. Ensure that the model name is valid."

/-- The connection-pool description of `rag_chain` (`chains.py:470`). -/
def ragConnText : String :=
  "Connection error: Failed to connect to service. Please verify if all required services are running and accessible."

/-- The connection-pool description of `rag_chain_with_multiturn`
(`chains.py:675`). -/
def multiConnText : String :=
  "Connection error: Failed to connect to service. Please verify if all required NIMs are running and accessible."

/-- An error chunk of the chain handlers: `StructuredResponse(response=text,
sources_used=True)` serialized. The `response` and `sources_used` keywords
are not model fields, so the object carries the default description. -/
def chainErrorChunk (text : String) : String :=
  serializeSR (mkStructuredResponse { response := some text, sources_used := some true })

/-- The per-chain texts and constructors that differ between `rag_chain` and
`rag_chain_with_multiturn`: the connection-pool description, the generic
failure message, the `structured_final` built after the groundedness check,
and the inner generator's error chunk. -/
structure ChainStyle where
  connText : String
  failText : String → String
  finalAnswer : String → StructuredResponse
  genErrorChunk : String → String

/-- The texts and constructors of single-turn `rag_chain` (`chains.py:440`,
`chains.py:452`, `chains.py:470`, `chains.py:494`). -/
def ragStyle : ChainStyle :=
  { connText := ragConnText
    failText := fun m => "Failed to generate RAG chain response. " ++ m
    finalAnswer := fun t => mkStructuredResponse
      { description := some ("vGPU configuration generated with reflection and grounding checks: " ++ t) }
    genErrorChunk := fun m => serializeSR (mkStructuredResponse
      { description := some ("Error generating RAG vGPU configuration: " ++ m ++ ". Unable to provide recommendation.") }) }

/-- The texts and constructors of `rag_chain_with_multiturn`
(`chains.py:638`, `chains.py:655`, `chains.py:675`, `chains.py:700`). -/
def multiStyle : ChainStyle :=
  { connText := multiConnText
    failText := fun m => "Failed to generate RAG chain with multi-turn response. " ++ m
    finalAnswer := fun t => mkStructuredResponse
      { response := some t, sources_used := some true,
        reasoning := some "Response generated with multiturn RAG, reflection and grounding checks" }
    genErrorChunk := fun m => serializeSR (mkStructuredResponse
      { response := some ("Error generating multiturn RAG response: " ++ m), sources_used := some true }) }

/-- The outer except clauses shared by `rag_chain` and
`rag_chain_with_multiturn` (`chains.py:458` to `chains.py:497` and
`chains.py:663` to `chains.py:703`): `ConnectTimeout` first, then
`requests.exceptions.ConnectionError` (whose handler returns only when the
message carries `"HTTPConnectionPool"`, else the clause falls through to an
implicit `None`), then the generic `Exception` clause with its substring
classification. -/
def chainHandlerResult (st : ChainStyle) (e : Exc) : PResult ChainValue :=
  match e with
  | .connectTimeout _ => .returned (.bareV [chainErrorChunk chainTimeoutText])
  | .connectionError m =>
    if strContains m "HTTPConnectionPool" then .returned (.bareV [chainErrorChunk st.connText])
    else .noneRet
  | e =>
    if forbiddenMarker e.str then .returned (.bareV [chainErrorChunk chainAuthText])
    else if notFoundMarker e.str then .returned (.bareV [chainErrorChunk chainNotFoundText])
    else .returned (.bareV [chainErrorChunk (st.failText e.str)])

/-- A `ChainOut` for an exception that reached the outer handlers, with the
trace values at that point. -/
def handlerOut (st : ChainStyle) (e : Exc) (usedRelO : Option Nat) (tot gc : Nat) (rc : Bool) : ChainOut :=
  { result := chainHandlerResult st e, innerExc := some e, usedRel := usedRelO,
    totalUsed := tot, groundCycles := gc, retrieverCalled := rc }

/-- The message of the `APIError` the generic `except` clause of
`ingest_docs` raises (`chains.py:228`). -/
def ingestErrorMessage (e : Exc) : String :=
  match e with
  | .connectTimeout _ =>
    "Connection timed out while accessing the embedding model endpoint. Verify server availability."
  | e =>
    if forbiddenMarker e.str then
      "Authentication or permission error: Verify NVIDIA API key validity and permissions."
    else if notFoundMarker e.str then
      "API endpoint or payload is invalid. Ensure the model name is valid."
    else "Failed to upload document. " ++ e.str

/-- `ingest_docs` (`chains.py:179` to `chains.py:228`): the try body loads,
splits and upserts; `ConnectTimeout` is re-raised as a 504 `APIError`, any
other failure is classified by substring markers into 403, 404 or 500. -/
def ingest_docs (env : IngestEnv) : PResult Unit :=
  match env.bodyOutcome with
  | .ok _ => .returned ()
  | .error (.connectTimeout m) => .raised (.apiError (ingestErrorMessage (.connectTimeout m)) 504)
  | .error e =>
    if forbiddenMarker e.str then .raised (.apiError (ingestErrorMessage e) 403)
    else if notFoundMarker e.str then .raised (.apiError (ingestErrorMessage e) 404)
    else .raised (.apiError ("Failed to upload document. " ++ e.str) 500)

/-- An error chunk of the `llm_chain` handlers: `StructuredResponse(
description=text)` serialized (these handlers do use the `description`
field). -/
def llmErrorChunk (text : String) : String :=
  serializeSR (mkStructuredResponse { description := some text })

/-- The outer except clauses of `llm_chain` (`chains.py:297` to
`chains.py:324`): `ConnectTimeout` first, then the generic `Exception`
clause with its substring classification; every branch returns a one-element
stream. -/
def llmHandlerResult (e : Exc) : PResult (List String) :=
  match e with
  | .connectTimeout _ =>
    .returned [llmErrorChunk (chainTimeoutText ++ " Unable to generate vGPU configuration.")]
  | e =>
    if forbiddenMarker e.str then
      .returned [llmErrorChunk (chainAuthText ++ " Unable to generate vGPU configuration.")]
    else if notFoundMarker e.str then
      .returned [llmErrorChunk (chainNotFoundText ++ " Unable to generate vGPU configuration.")]
    else
      .returned [llmErrorChunk ("Failed to generate RAG chain response. " ++ e.str ++ ". Unable to generate vGPU configuration.")]

/-- `llm_chain` (`chains.py:230` to `chains.py:324`): assemble the prompt,
return the one-element structured stream; the inner generator catches its
own exception and yields an error chunk instead, so only setup failures
reach the outer handlers. -/
def llm_chain (le : LlmEnv) : PResult (List String) :=
  match le.setupOutcome with
  | .error e => llmHandlerResult e
  | .ok _ =>
    let msgs := llmMessages le.modelName le.thinkingEnv le.chatTemplate le.chat_history le.query
    .returned [match le.generateOutcome msgs le.query with
      | .ok r => serializeSR r
      | .error e =>
        llmErrorChunk ("Error generating vGPU configuration: " ++ e.str ++ ". Unable to provide recommendation.")]

/-- The answer sequence fed to the groundedness loop: index 0 is the
first-pass response text, later indices the regenerated candidates. -/
def groundAnswers (first : String) (regen : Nat → String) : Nat → String :=
  fun i => if i = 0 then first else regen i

/-- The one-element stream of the no-groundedness generation path
(`stream_structured_rag_response` / `stream_structured_multiturn_response`):
the generator catches its own exception and yields an error chunk, so this
path cannot raise. The multiturn `sources_used` fix-up is a no-op because
the model has no such attribute (`hasattr` is false). -/
def firstPassStream (st : ChainStyle) (ce : ChainEnv) (msgs : List (String × String)) (docsF : List String) : List String :=
  [match ce.generateOutcome msgs ce.query docsF with
    | .ok r => serializeSR r
    | .error e => st.genErrorChunk e.str]

/-- The generation stage shared by both chains (`chains.py:423` to
`chains.py:457` and `chains.py:621` to `chains.py:661`): format the context,
then either run the groundedness check (only when reflection ran and
`reflection_counter.remaining > 0`) or return the first-pass structured
stream; both success paths return the pair `(stream, context_to_show)`.
`usedRelO` is `some u` exactly when reflection was enabled, `u` the
relevance loop's final `used`. -/
def chainGenerate (st : ChainStyle) (ce : ChainEnv) (msgs : List (String × String)) (ctx : List Doc) (usedRelO : Option Nat) : ChainOut :=
  let docsF := ctx.map format_document_with_source
  match usedRelO with
  | some u =>
    if ce.maxReflectionLoop - u > 0 then
      match ce.generateOutcome msgs ce.query docsF with
      | .error e => handlerOut st e (some u) u 0 true
      | .ok initial =>
        let g := check_response_groundedness ce.groundJudge
          (groundAnswers (pyStrSR initial) ce.regenAnswers) ce.maxReflectionLoop u
        { result := .returned (.pairV [serializeSR (st.finalAnswer g.text)] ctx),
          innerExc := none, usedRel := some u, totalUsed := g.used,
          groundCycles := g.cycles, retrieverCalled := true }
    else
      { result := .returned (.pairV (firstPassStream st ce msgs docsF) ctx),
        innerExc := none, usedRel := some u, totalUsed := u, groundCycles := 0,
        retrieverCalled := true }
  | none =>
    { result := .returned (.pairV (firstPassStream st ce msgs docsF) ctx),
      innerExc := none, usedRel := none, totalUsed := 0, groundCycles := 0,
      retrieverCalled := true }

/-- The retrieval stage shared by both chains when reflection is off: the
reranker path (`retrieve`, `compress_documents`, score normalization) or the
plain retrieve, each failure reaching the outer handlers. `rq` is the
retrieval query. -/
def chainRetrieve (st : ChainStyle) (ce : ChainEnv) (msgs : List (String × String)) (rq : String) : ChainOut :=
  if ce.rankerAvailable && ce.enableReranker then
    match ce.retrieveOutcome rq with
    | .error e => handlerOut st e none 0 0 true
    | .ok docs0 =>
      match ce.rerankOutcome rq docs0 with
      | .error e => handlerOut st e none 0 0 true
      | .ok docs1 => chainGenerate st ce msgs (normalize_relevance_scores docs1) none
  else
    match ce.retrieveOutcome rq with
    | .error e => handlerOut st e none 0 0 true
    | .ok docs => chainGenerate st ce msgs docs none

/-- The context-plus-generation stage shared by both chains: with reflection
on, run the relevance loop over the shared budget and carry its counter into
the generation stage; otherwise retrieve (optionally reranking). -/
def chainContextStage (st : ChainStyle) (ce : ChainEnv) (msgs : List (String × String)) (rq : String) : ChainOut :=
  if ce.enableReflection then
    let r := check_context_relevance ce.relevanceJudge ce.relevanceContexts ce.maxReflectionLoop
    chainGenerate st ce msgs r.ctx (some r.used)
  else chainRetrieve st ce msgs rq

/-- The retrieval-query formulation of `rag_chain_with_multiturn`
(`chains.py:549` to `chains.py:576`), over the already truncated history:
the raw query when the history is empty; with rewriting enabled, the
rewriter LLM's output, with `none` signalling the empty / empty-quoted
short-circuit; with rewriting disabled, prior user turns joined with the
current query by `". "`. -/
def multiturnRetrieverQuery (ce : ChainEnv) (hist : List Message) (conv : List (String × String)) : Except Exc (Option String) :=
  if hist.isEmpty then .ok (some ce.query)
  else if ce.enableQueryRewriting then
    match ce.rewriteOutcome conv ce.query with
    | .error e => .error e
    | .ok rq => if emptyQueryCheck rq then .ok none else .ok (some rq)
  else .ok (some (String.intercalate ". " (userContents hist ++ [ce.query])))

/-- The body of `rag_chain_with_multiturn` after the vector-store check,
over the truncated history `hist`: formulate the retrieval query (the
empty-rewrite case returns the bare `iter([""])` stream), assemble the
prompt, then the shared context and generation stages. -/
def multiturnBody (ce : ChainEnv) (hist : List Message) : ChainOut :=
  match multiturnRetrieverQuery ce hist (nonSystemPairsFold hist) with
  | .error e => handlerOut multiStyle e none 0 0 false
  | .ok none =>
    { result := .returned (.bareV [""]), innerExc := none, usedRel := none,
      totalUsed := 0, groundCycles := 0, retrieverCalled := false }
  | .ok (some rq) =>
    chainContextStage multiStyle ce
      (multiturnMessages ce.modelName ce.thinkingEnv ce.ragTemplate hist) rq

/-- `rag_chain_with_multiturn` (`chains.py:500` to `chains.py:703`): check
the vector store, truncate the history to the last `2 * K` messages
(`chains.py:526`), then run the body. -/
def rag_chain_with_multiturn (ce : ChainEnv) : ChainOut :=
  if !ce.vsAvailable then
    handlerOut multiStyle (.apiError vsUninitMsg 500) none 0 0 false
  else multiturnBody ce (pySliceLast (2 * ce.historyK) ce.chat_history)

/-- `rag_chain` (`chains.py:326` to `chains.py:497`): delegate to the
multiturn chain when `ENABLE_MULTITURN` is set; otherwise check the vector
store, assemble the single-turn prompt (history's non-system turns dropped,
no truncation, no rewriting) and run the shared stages with the raw query as
retrieval query. -/
def rag_chain (ce : ChainEnv) : ChainOut :=
  if ce.enableMultiturn then rag_chain_with_multiturn ce
  else if !ce.vsAvailable then
    handlerOut ragStyle (.apiError vsUninitMsg 500) none 0 0 false
  else
    chainContextStage ragStyle ce
      (ragMessages ce.modelName ce.thinkingEnv ce.ragTemplate ce.chat_history) ce.query

/-- The retrieval-query formulation of `document_search` (`chains.py:731` to
`chains.py:767`): the raw content when there are no messages; with rewriting
enabled, the history is truncated to the last `2 * K` messages first and the
rewriter's empty / empty-quoted output signals the short-circuit; with
rewriting disabled, ALL prior user turns (no truncation) joined with the
content by `". "`. -/
def searchRetrieverQuery (se : SearchEnv) : Except Exc (Option String) :=
  if se.messages.isEmpty then .ok (some se.content)
  else if se.enableQueryRewriting then
    let msgs := pySliceLast (2 * se.historyK) se.messages
    match se.rewriteOutcome (nonSystemPairsFold msgs) se.content with
    | .error e => .error e
    | .ok rq => if emptyQueryCheck rq then .ok none else .ok (some rq)
  else .ok (some (String.intercalate ". " (userContents se.messages ++ [se.content])))

/-- The catch-all of `document_search` (`chains.py:802`): any failure is
re-raised as `APIError(f"Failed to search documents. {str(e)}")` with the
constructor's default status 400. -/
def searchFailure (e : Exc) : PResult (List Doc) :=
  .raised (.apiError ("Failed to search documents. " ++ e.str) 400)

/-- `document_search` (`chains.py:706` to `chains.py:803`): an unavailable
vector store raises a bare `ValueError`; the retrieval query is formulated;
then either the reflection relevance loop, the reranker path, or the plain
retrieve produces the returned list. The single except clause wraps any
failure as a status-400 `APIError`. -/
def document_search (se : SearchEnv) : SearchOut :=
  if !se.vsAvailable then
    { result := searchFailure (.valueError ""), retrieverCalled := false }
  else
    match searchRetrieverQuery se with
    | .error e => { result := searchFailure e, retrieverCalled := false }
    | .ok none => { result := .returned [], retrieverCalled := false }
    | .ok (some rq) =>
      if se.enableReflection then
        { result := .returned (check_context_relevance se.relevanceJudge se.relevanceContexts se.maxReflectionLoop).ctx,
          retrieverCalled := true }
      else if se.rankerAvailable && se.enableReranker then
        match se.retrieveOutcome rq with
        | .error e => { result := searchFailure e, retrieverCalled := true }
        | .ok docs0 =>
          match se.rerankOutcome rq docs0 with
          | .error e => { result := searchFailure e, retrieverCalled := true }
          | .ok docs1 => { result := .returned (normalize_relevance_scores docs1), retrieverCalled := true }
      else
        match se.retrieveOutcome rq with
        | .error e => { result := searchFailure e, retrieverCalled := true }
        | .ok docs => { result := .returned docs, retrieverCalled := true }

/-- Whether a pipeline outcome is anything but a raised exception. -/
def notRaised : PResult α → Bool
  | .raised _ => false
  | _ => true

/-- Whether a chain outcome is the success shape: a `(stream, context)` pair. -/
def isPairResult : PResult ChainValue → Bool
  | .returned (.pairV _ _) => true
  | _ => false

/-- Whether a chain outcome is a bare one-element-style stream with no
context component. -/
def isBareResult : PResult ChainValue → Bool
  | .returned (.bareV _) => true
  | _ => false

/-- The return-shape discipline of the generation chains, allowing the
multiturn empty-rewrite short-circuit: when no exception reached the outer
handlers the result is a `(stream, context)` pair or the bare `[""]` stream;
when one did, the result is a bare stream, except that an unmatched
`ConnectionError` (no `"HTTPConnectionPool"` in its message) falls through
to an implicit `None`. -/
def ChainOutOk (o : ChainOut) : Prop :=
  (o.innerExc = none →
    isPairResult o.result = true ∨ o.result = .returned (.bareV [""])) ∧
  (∀ e, o.innerExc = some e →
    isBareResult o.result = true ∨
      (o.result = .noneRet ∧
        ∃ m, e = .connectionError m ∧ strContains m "HTTPConnectionPool" = false))

/-- The strict return-shape discipline (no empty-rewrite short-circuit):
what single-turn `rag_chain` and the shared stages satisfy. -/
def ChainOutOkStrict (o : ChainOut) : Prop :=
  (o.innerExc = none → isPairResult o.result = true) ∧
  (∀ e, o.innerExc = some e →
    isBareResult o.result = true ∨
      (o.result = .noneRet ∧
        ∃ m, e = .connectionError m ∧ strContains m "HTTPConnectionPool" = false))

/-- Following the claim's words (C3): one status per upstream failure — a
timeout signal always 504 regardless of message content, the
forbidden/invalid-auth marker 403, the not-found marker 404, all else 500. -/
def claimedStatus (e : Exc) : Nat :=
  match e with
  | .connectTimeout _ => 504
  | e =>
    if forbiddenMarker e.str then 403
    else if notFoundMarker e.str then 404
    else 500

/-- Following the claim's words (C9): the claimed deterministic prompt
sequence — system instructions, then the optional model-specific primer,
then the conversation history, then the formatted context, then the user
query. -/
def claimedPromptSequence (sys : String) (primer hist ctx : List (String × String)) (queryMsg : String × String) : List (String × String) :=
  ("system", sys) :: (primer ++ hist ++ ctx ++ [queryMsg])

/-- A neutral chain environment: multiturn, reranking, rewriting and
reflection off, the vector store up, every collaborator call succeeding. -/
def baseChainEnv : ChainEnv :=
  { query := "q", chat_history := [], modelName := "m", thinkingEnv := false,
    ragTemplate := "RT", enableMultiturn := false, enableReranker := false,
    rankerAvailable := false, enableQueryRewriting := false, historyK := 15,
    enableReflection := false, maxReflectionLoop := 3, vsAvailable := true,
    reranker_top_k := 4, vdb_top_k := 40,
    rewriteOutcome := fun _ _ => .ok "q",
    retrieveOutcome := fun _ => .ok [],
    rerankOutcome := fun _ docs => .ok docs,
    generateOutcome := fun _ _ _ => .ok (mkStructuredResponse {}),
    relevanceJudge := fun _ => true, relevanceContexts := fun _ => [],
    groundJudge := fun _ => true, regenAnswers := fun _ => "regen" }

/-- A neutral search environment, mirroring `baseChainEnv`. -/
def baseSearchEnv : SearchEnv :=
  { content := "q", messages := [], enableReranker := false,
    rankerAvailable := false, enableQueryRewriting := false, historyK := 15,
    enableReflection := false, maxReflectionLoop := 3, vsAvailable := true,
    reranker_top_k := 4, vdb_top_k := 40,
    rewriteOutcome := fun _ _ => .ok "q",
    retrieveOutcome := fun _ => .ok [],
    rerankOutcome := fun _ docs => .ok docs,
    relevanceJudge := fun _ => true, relevanceContexts := fun _ => [] }

/-- C1's concrete failing search call: the retriever raises a generic
exception. -/
def seC1 : SearchEnv :=
  { baseSearchEnv with retrieveOutcome := fun _ => .error (.other "boom") }

/-- C1's concrete chain call whose `ConnectionError` message lacks the
`"HTTPConnectionPool"` marker, so the handler falls through to `None`. -/
def ceC1none : ChainEnv :=
  { baseChainEnv with retrieveOutcome := fun _ => .error (.connectionError "refused") }

/-- C2's concrete reflective call: budget 2, the relevance judge never
satisfied, so the relevance loop consumes the whole budget. -/
def ceC2 : ChainEnv :=
  { baseChainEnv with
    enableReflection := true
    maxReflectionLoop := 2
    relevanceJudge := fun _ => false }

/-- C3's concrete failing search call: the retriever times out. -/
def seC3 : SearchEnv :=
  { baseSearchEnv with retrieveOutcome := fun _ => .error (.connectTimeout "t") }

/-- C4's concrete failing generation call: the retriever times out inside
`rag_chain`, reaching the `ConnectTimeout` handler. -/
def ceC4 : ChainEnv :=
  { baseChainEnv with retrieveOutcome := fun _ => .error (.connectTimeout "t") }

/-- C5's concrete multiturn call whose rewritten query is empty. -/
def ceC5 : ChainEnv :=
  { baseChainEnv with
    enableQueryRewriting := true
    chat_history := [{ role := "user", content := "hi" }]
    rewriteOutcome := fun _ _ => .ok "" }

/-- C5's concrete search call whose rewritten query is empty. -/
def seC5 : SearchEnv :=
  { baseSearchEnv with
    enableQueryRewriting := true
    messages := [{ role := "user", content := "hi" }]
    rewriteOutcome := fun _ _ => .ok "" }

/-- C6's concrete search call with the vector store down. -/
def seC6 : SearchEnv := { baseSearchEnv with vsAvailable := false }

/-- C6's concrete chain call with the vector store down. -/
def ceC6 : ChainEnv := { baseChainEnv with vsAvailable := false }

/-- C7's concrete search call: user turns `"a"`, `"b"` (with an assistant
turn between) and query `"c"`. -/
def seC7 : SearchEnv :=
  { baseSearchEnv with
    messages := [{ role := "user", content := "a" },
                 { role := "assistant", content := "x" },
                 { role := "user", content := "b" }]
    content := "c" }

/-- C7's concrete multiturn call with user turns `"a"`, `"b"` and query
`"c"`. -/
def ceC7 : ChainEnv :=
  { baseChainEnv with
    chat_history := [{ role := "user", content := "a" },
                     { role := "user", content := "b" }]
    query := "c" }

/-- C8's concrete search call: window K = 1 (so 2 messages) but three user
turns, rewriting disabled; the retriever echoes its query into the returned
document. -/
def seC8 : SearchEnv :=
  { baseSearchEnv with
    historyK := 1
    messages := [{ role := "user", content := "a" },
                 { role := "user", content := "b" },
                 { role := "user", content := "c" }]
    content := "q"
    retrieveOutcome := fun s => .ok [{ text := s, source := "kb" }] }

/-- C8's search call on the pre-truncated history, for contrast. -/
def seC8trunc : SearchEnv :=
  { seC8 with messages := pySliceLast 2 seC8.messages }

/-- C8's witness environments: a rewriting-enabled search call. -/
def seC8w : SearchEnv :=
  { baseSearchEnv with
    enableQueryRewriting := true
    messages := [{ role := "user", content := "hi" }] }

/-- C10's concrete multiturn call that completes without any exception yet
returns a bare stream: the empty-rewrite short-circuit. -/
def ceC10 : ChainEnv :=
  { baseChainEnv with
    enableQueryRewriting := true
    chat_history := [{ role := "user", content := "hello" }]
    rewriteOutcome := fun _ _ => .ok "" }

theorem relGo_used_le (j : Nat → Bool) (c : Nat → List Doc) :
    ∀ fuel used, (relGo j c used fuel).used ≤ used + fuel := by
  intro fuel
  induction fuel with
  | zero => intro used; simp [relGo]
  | succ f ih =>
    intro used
    simp only [relGo]
    split
    · show used ≤ used + (f + 1)
      omega
    · have := ih (used + 1)
      omega

theorem grdGo_used_le (j : Nat → Bool) (a : Nat → String) :
    ∀ fuel used i cyc, (grdGo j a used i cyc fuel).used ≤ used + fuel := by
  intro fuel
  induction fuel with
  | zero => intro used i cyc; simp [grdGo]
  | succ f ih =>
    intro used i cyc
    simp only [grdGo]
    split
    · show used ≤ used + (f + 1)
      omega
    · have := ih (used + 1) (i + 1) (cyc + 1)
      omega

theorem pySliceLast_idem (n : Nat) (xs : List α) :
    pySliceLast n (pySliceLast n xs) = pySliceLast n xs := by
  by_cases h : n = 0
  · simp [pySliceLast, h]
  · simp only [pySliceLast, if_neg h, List.length_drop]
    have h0 : xs.length - (xs.length - n) - n = 0 := by omega
    rw [h0, List.drop_zero]

theorem pySliceLast_of_le (n : Nat) (xs : List α) (h : xs.length ≤ n) :
    pySliceLast n xs = xs := by
  by_cases h0 : n = 0
  · simp [pySliceLast, h0]
  · have h1 : xs.length - n = 0 := by omega
    simp [pySliceLast, h0, h1]

theorem pySliceLast_eq_nil_iff (n : Nat) (xs : List α) :
    pySliceLast n xs = [] ↔ xs = [] := by
  constructor
  · intro h
    by_cases h0 : n = 0
    · simpa [pySliceLast, h0] using h
    · simp only [pySliceLast, if_neg h0] at h
      have := List.drop_eq_nil_iff.mp h
      have hl : xs.length = 0 := by omega
      exact List.length_eq_zero.mp hl
  · intro h
    simp [pySliceLast, h]

theorem nonSystemPairsFold_acc (hist : List Message) :
    ∀ acc : List (String × String),
      hist.foldl (fun acc m => if m.role == "system" then acc else acc ++ [(m.role, m.content)]) acc =
        acc ++ nonSystemPairs hist := by
  induction hist with
  | nil => intro acc; simp [nonSystemPairs]
  | cons m t ih =>
    intro acc
    rw [List.foldl_cons]
    by_cases h : m.role = "system"
    · rw [if_pos (by simp [h]), ih]
      simp [nonSystemPairs, List.filter_cons, h]
    · rw [if_neg (by simp [h]), ih]
      simp [nonSystemPairs, List.filter_cons, h]

theorem nonSystemPairsFold_eq (hist : List Message) :
    nonSystemPairsFold hist = nonSystemPairs hist := by
  have h := nonSystemPairsFold_acc hist []
  rw [List.nil_append] at h
  exact h

theorem serializeSR_ne_empty (r : StructuredResponse) : serializeSR r ≠ "" := by
  intro h
  have h2 := congrArg String.length h
  simp only [serializeSR, String.length_append] at h2
  rw [show ("\x7b\"title\": \"" : String).length = 11 from rfl,
    show ("" : String).length = 0 from rfl] at h2
  omega

theorem chainHandlerResult_shape (st : ChainStyle) (e : Exc) :
    isBareResult (chainHandlerResult st e) = true ∨
      (chainHandlerResult st e = PResult.noneRet ∧
        ∃ m, e = .connectionError m ∧ strContains m "HTTPConnectionPool" = false) := by
  cases e with
  | connectTimeout m => left; rfl
  | connectionError m =>
    by_cases h : strContains m "HTTPConnectionPool" = true
    · left; simp [chainHandlerResult, h, isBareResult]
    · right
      constructor
      · simp only [chainHandlerResult]
        rw [if_neg h]
      · exact ⟨m, rfl, by simpa using h⟩
  | apiError m c =>
    simp only [chainHandlerResult]
    split
    · left; rfl
    · split
      · left; rfl
      · left; rfl
  | valueError m =>
    simp only [chainHandlerResult]
    split
    · left; rfl
    · split
      · left; rfl
      · left; rfl
  | other m =>
    simp only [chainHandlerResult]
    split
    · left; rfl
    · split
      · left; rfl
      · left; rfl

theorem handlerOut_strict (st : ChainStyle) (e : Exc) (u : Option Nat) (t g : Nat) (r : Bool) :
    ChainOutOkStrict (handlerOut st e u t g r) := by
  constructor
  · intro h
    simp [handlerOut] at h
  · intro e2 h
    simp only [handlerOut] at h ⊢
    have he : e = e2 := by simpa using h
    subst he
    exact chainHandlerResult_shape st e

theorem chainGenerate_strict (st : ChainStyle) (ce : ChainEnv) (msgs : List (String × String))
    (ctx : List Doc) (o : Option Nat) :
    ChainOutOkStrict (chainGenerate st ce msgs ctx o) := by
  simp only [chainGenerate]
  split
  · split
    · split
      · exact handlerOut_strict st _ _ _ 0 true
      · exact ⟨fun _ => rfl, fun e h => by simp at h⟩
    · exact ⟨fun _ => rfl, fun e h => by simp at h⟩
  · exact ⟨fun _ => rfl, fun e h => by simp at h⟩

theorem chainRetrieve_strict (st : ChainStyle) (ce : ChainEnv) (msgs : List (String × String))
    (rq : String) : ChainOutOkStrict (chainRetrieve st ce msgs rq) := by
  simp only [chainRetrieve]
  split
  · split
    · exact handlerOut_strict st _ none 0 0 true
    · split
      · exact handlerOut_strict st _ none 0 0 true
      · exact chainGenerate_strict st ce msgs _ none
  · split
    · exact handlerOut_strict st _ none 0 0 true
    · exact chainGenerate_strict st ce msgs _ none

theorem chainContextStage_strict (st : ChainStyle) (ce : ChainEnv) (msgs : List (String × String))
    (rq : String) : ChainOutOkStrict (chainContextStage st ce msgs rq) := by
  simp only [chainContextStage]
  split
  · exact chainGenerate_strict st ce msgs _ _
  · exact chainRetrieve_strict st ce msgs rq

theorem strict_toOk (o : ChainOut) (h : ChainOutOkStrict o) : ChainOutOk o :=
  ⟨fun hn => Or.inl (h.1 hn), h.2⟩

theorem multiturnBody_ok (ce : ChainEnv) (hist : List Message) :
    ChainOutOk (multiturnBody ce hist) := by
  simp only [multiturnBody]
  split
  · exact strict_toOk _ (handlerOut_strict multiStyle _ none 0 0 false)
  · exact ⟨fun _ => Or.inr rfl, fun e h => by simp at h⟩
  · exact strict_toOk _ (chainContextStage_strict multiStyle ce _ _)

theorem rag_chain_with_multiturn_ok (ce : ChainEnv) :
    ChainOutOk (rag_chain_with_multiturn ce) := by
  simp only [rag_chain_with_multiturn]
  split
  · exact strict_toOk _ (handlerOut_strict multiStyle _ none 0 0 false)
  · exact multiturnBody_ok ce _

theorem rag_chain_strict (ce : ChainEnv) (h : ce.enableMultiturn = false) :
    ChainOutOkStrict (rag_chain ce) := by
  simp only [rag_chain, h, Bool.false_eq_true, if_false]
  split
  · exact handlerOut_strict ragStyle _ none 0 0 false
  · exact chainContextStage_strict ragStyle ce _ _

theorem rag_chain_ok (ce : ChainEnv) : ChainOutOk (rag_chain ce) := by
  by_cases h : ce.enableMultiturn = true
  · simp only [rag_chain, h, if_true]
    exact rag_chain_with_multiturn_ok ce
  · exact strict_toOk _ (rag_chain_strict ce (by simpa using h))

theorem chainOutOk_notRaised (o : ChainOut) (h : ChainOutOk o) : notRaised o.result = true := by
  cases he : o.innerExc with
  | none =>
    rcases h.1 he with hp | hb
    · cases hr : o.result with
      | returned v =>
        cases v <;> rfl
      | raised e => rw [hr] at hp; simp [isPairResult] at hp
      | noneRet => rfl
  
    · rw [hb]; rfl
  | some e =>
    rcases h.2 e he with hb | ⟨hn, _⟩
    · cases hr : o.result with
      | returned v => cases v <;> rfl
      | raised e2 => rw [hr] at hb; simp [isBareResult] at hb
      | noneRet => rfl
    · rw [hn]; rfl

theorem chainGenerate_usedRel (st : ChainStyle) (ce : ChainEnv) (msgs : List (String × String))
    (ctx : List Doc) (o : Option Nat) : (chainGenerate st ce msgs ctx o).usedRel = o := by
  simp only [chainGenerate]
  split
  · split
    · split
      · rfl
      · rfl
    · rfl
  · rfl

theorem check_response_groundedness_used_le (j : Nat → Bool) (a : Nat → String) (M u : Nat)
    (hu : u ≤ M) : (check_response_groundedness j a M u).used ≤ M := by
  have := grdGo_used_le j a (M - u) u 0 0
  simp only [check_response_groundedness]
  omega

theorem chainGenerate_totalUsed_le (st : ChainStyle) (ce : ChainEnv) (msgs : List (String × String))
    (ctx : List Doc) (u : Nat) (hu : u ≤ ce.maxReflectionLoop) :
    (chainGenerate st ce msgs ctx (some u)).totalUsed ≤ ce.maxReflectionLoop := by
  simp only [chainGenerate]
  split
  · split
    · simpa [handlerOut] using hu
    · exact check_response_groundedness_used_le _ _ _ _ hu
  · simpa using hu

theorem chainGenerate_exhausted (st : ChainStyle) (ce : ChainEnv) (msgs : List (String × String))
    (ctx : List Doc) (u : Nat) (h : ce.maxReflectionLoop ≤ u) :
    chainGenerate st ce msgs ctx (some u) =
      { result := .returned (.pairV (firstPassStream st ce msgs (ctx.map format_document_with_source)) ctx),
        innerExc := none, usedRel := some u, totalUsed := u, groundCycles := 0,
        retrieverCalled := true } := by
  simp only [chainGenerate]
  rw [if_neg (by omega)]

theorem chainGenerate_cycles_pos (st : ChainStyle) (ce : ChainEnv) (msgs : List (String × String))
    (ctx : List Doc) (o : Option Nat) (h : (chainGenerate st ce msgs ctx o).groundCycles ≠ 0) :
    ∃ u, o = some u ∧ u < ce.maxReflectionLoop := by
  rcases o with _ | u
  · exact absurd rfl h
  · refine ⟨u, rfl, ?_⟩
    by_cases hb : ce.maxReflectionLoop - u > 0
    · omega
    · rw [chainGenerate_exhausted st ce msgs ctx u (by omega)] at h
      exact absurd rfl h

theorem document_search_total (se : SearchEnv) :
    (∃ ds, (document_search se).result = PResult.returned ds) ∨
    (∃ m, (document_search se).result = PResult.raised (.apiError m 400)) := by
  simp only [document_search, searchFailure]
  split
  · right; exact ⟨_, rfl⟩
  · split
    · right; exact ⟨_, rfl⟩
    · left; exact ⟨_, rfl⟩
    · split
      · left; exact ⟨_, rfl⟩
      · split
        · split
          · right; exact ⟨_, rfl⟩
          · split
            · right; exact ⟨_, rfl⟩
            · left; exact ⟨_, rfl⟩
        · split
          · right; exact ⟨_, rfl⟩
          · left; exact ⟨_, rfl⟩

theorem llm_chain_returns (le : LlmEnv) : ∃ s, llm_chain le = PResult.returned [s] := by
  simp only [llm_chain]
  split
  · simp only [llmHandlerResult]
    split
    · exact ⟨_, rfl⟩
    · split
      · exact ⟨_, rfl⟩
      · split
        · exact ⟨_, rfl⟩
        · exact ⟨_, rfl⟩
  · exact ⟨_, rfl⟩

/-- C1 counterexample: with the retriever raising a generic exception,
`document_search` does not return a list at all — it raises a classified
`APIError`, so the search path is not exception-free as the claim states. -/
theorem c1_counterexample :
    (document_search seC1).result = PResult.raised (.apiError "Failed to search documents. boom" 400) ∧
    ¬ ∃ ds, (document_search seC1).result = PResult.returned ds := by
  have h0 : (document_search seC1).result = PResult.raised (.apiError "Failed to search documents. boom" 400) := by decide
  refine ⟨h0, ?_⟩
  rintro ⟨ds, h⟩
  rw [h0] at h
  simp at h

/-- C1 (amended): the generation paths are total — `llm_chain` always
returns a one-element stream, and `rag_chain` / `rag_chain_with_multiturn`
never raise (though their unmatched-`ConnectionError` handler can return
`None`, as the concrete final conjunct shows); the search path either
returns a list or raises a status-400 `APIError` — it is not
exception-free. -/
theorem c1_amended_totality (le : LlmEnv) (ce1 ce2 : ChainEnv) (se : SearchEnv) :
    (∃ s, llm_chain le = PResult.returned [s]) ∧
    notRaised (rag_chain ce1).result = true ∧
    notRaised (rag_chain_with_multiturn ce2).result = true ∧
    ((∃ ds, (document_search se).result = PResult.returned ds) ∨
      (∃ m, (document_search se).result = PResult.raised (.apiError m 400))) ∧
    (rag_chain ceC1none).result = PResult.noneRet :=
  ⟨llm_chain_returns le, chainOutOk_notRaised _ (rag_chain_ok ce1),
   chainOutOk_notRaised _ (rag_chain_with_multiturn_ok ce2),
   document_search_total se, by decide⟩

/-- C2: with reflection enabled, the total reflection attempts consumed
across the relevance and groundedness loops never exceed the budget; the
groundedness loop runs only when the relevance loop left remaining budget;
and when the relevance loop consumed the entire budget, zero
generation-evaluation cycles run and the first-pass stream is returned
unmodified. -/
theorem c2_reflection_budget (ce : ChainEnv) (h : ce.enableReflection = true) :
    (rag_chain_with_multiturn ce).totalUsed ≤ ce.maxReflectionLoop ∧
    ((rag_chain_with_multiturn ce).usedRel = some ce.maxReflectionLoop →
      (rag_chain_with_multiturn ce).groundCycles = 0 ∧
      ∃ msgs docsF ctx, (rag_chain_with_multiturn ce).result =
        PResult.returned (.pairV (firstPassStream multiStyle ce msgs docsF) ctx)) ∧
    ((rag_chain_with_multiturn ce).groundCycles ≠ 0 →
      ∃ u, (rag_chain_with_multiturn ce).usedRel = some u ∧ u < ce.maxReflectionLoop) := by
  simp only [rag_chain_with_multiturn, multiturnBody]
  split
  · refine ⟨Nat.zero_le _, ?_, ?_⟩
    · intro hr; simp [handlerOut] at hr
    · intro hg; simp [handlerOut] at hg
  · split
    · refine ⟨Nat.zero_le _, ?_, ?_⟩
      · intro hr; simp [handlerOut] at hr
      · intro hg; simp [handlerOut] at hg
    · refine ⟨Nat.zero_le _, ?_, ?_⟩
      · intro hr; simp at hr
      · intro hg; simp at hg
    · simp only [chainContextStage, h, if_true]
      have hu : (check_context_relevance ce.relevanceJudge ce.relevanceContexts ce.maxReflectionLoop).used ≤ ce.maxReflectionLoop := by
        have := relGo_used_le ce.relevanceJudge ce.relevanceContexts ce.maxReflectionLoop 0
        simpa [check_context_relevance] using this
      refine ⟨chainGenerate_totalUsed_le _ _ _ _ _ hu, ?_, ?_⟩
      · intro hr
        rw [chainGenerate_usedRel] at hr
        have hM : ce.maxReflectionLoop ≤ (check_context_relevance ce.relevanceJudge ce.relevanceContexts ce.maxReflectionLoop).used :=
          le_of_eq (Option.some.inj hr).symm
        rw [chainGenerate_exhausted _ _ _ _ _ hM]
        exact ⟨rfl, _, _, _, rfl⟩
      · intro hg
        obtain ⟨u, hu2, hlt⟩ := chainGenerate_cycles_pos _ _ _ _ _ hg
        exact ⟨u, by rw [chainGenerate_usedRel]; exact hu2, hlt⟩

/-- C2 witness: the concrete reflective call `ceC2` (budget 2, relevance
judge never satisfied) satisfies the budget theorem's hypothesis and
conclusion. -/
theorem c2_reflection_budget_witness :
    ceC2.enableReflection = true ∧
    ((rag_chain_with_multiturn ceC2).totalUsed ≤ ceC2.maxReflectionLoop ∧
    ((rag_chain_with_multiturn ceC2).usedRel = some ceC2.maxReflectionLoop →
      (rag_chain_with_multiturn ceC2).groundCycles = 0 ∧
      ∃ msgs docsF ctx, (rag_chain_with_multiturn ceC2).result =
        PResult.returned (.pairV (firstPassStream multiStyle ceC2 msgs docsF) ctx)) ∧
    ((rag_chain_with_multiturn ceC2).groundCycles ≠ 0 →
      ∃ u, (rag_chain_with_multiturn ceC2).usedRel = some u ∧ u < ceC2.maxReflectionLoop)) :=
  ⟨rfl, c2_reflection_budget ceC2 rfl⟩

/-- C3 counterexample: a timeout raised by the retriever inside
`document_search` is classified with status 400, not 504, because the
catch-all there wraps every failure in an `APIError` with the constructor's
default code. -/
theorem c3_counterexample :
    (document_search seC3).result = PResult.raised (.apiError "Failed to search documents. t" 400) ∧
    ¬ (400 = 504) := ⟨by decide, by decide⟩

/-- C3 (amended): the claimed classification (timeout 504 regardless of
message; both forbidden markers 403, checked before the not-found marker
404; all else 500) holds for `ingest_docs`; `document_search` instead wraps
every failure as a status-400 `APIError`. -/
theorem c3_amended_classification :
    (∀ e, ingest_docs { bodyOutcome := .error e } =
      PResult.raised (.apiError (ingestErrorMessage e) (claimedStatus e))) ∧
    (∀ se, (∃ ds, (document_search se).result = PResult.returned ds) ∨
      (∃ m, (document_search se).result = PResult.raised (.apiError m 400))) := by
  refine ⟨?_, document_search_total⟩
  intro e
  cases e with
  | connectTimeout m => rfl
  | connectionError m =>
    by_cases hf : forbiddenMarker (Exc.str (.connectionError m)) = true
    · simp [ingest_docs, ingestErrorMessage, claimedStatus, hf]
    · by_cases hn : notFoundMarker (Exc.str (.connectionError m)) = true
      · simp [ingest_docs, ingestErrorMessage, claimedStatus, hf, hn]
      · simp [ingest_docs, ingestErrorMessage, claimedStatus, hf, hn]
  | apiError m c =>
    by_cases hf : forbiddenMarker (Exc.str (.apiError m c)) = true
    · simp [ingest_docs, ingestErrorMessage, claimedStatus, hf]
    · by_cases hn : notFoundMarker (Exc.str (.apiError m c)) = true
      · simp [ingest_docs, ingestErrorMessage, claimedStatus, hf, hn]
      · simp [ingest_docs, ingestErrorMessage, claimedStatus, hf, hn]
  | valueError m =>
    by_cases hf : forbiddenMarker (Exc.str (.valueError m)) = true
    · simp [ingest_docs, ingestErrorMessage, claimedStatus, hf]
    · by_cases hn : notFoundMarker (Exc.str (.valueError m)) = true
      · simp [ingest_docs, ingestErrorMessage, claimedStatus, hf, hn]
      · simp [ingest_docs, ingestErrorMessage, claimedStatus, hf, hn]
  | other m =>
    by_cases hf : forbiddenMarker (Exc.str (.other m)) = true
    · simp [ingest_docs, ingestErrorMessage, claimedStatus, hf]
    · by_cases hn : notFoundMarker (Exc.str (.other m)) = true
      · simp [ingest_docs, ingestErrorMessage, claimedStatus, hf, hn]
      · simp [ingest_docs, ingestErrorMessage, claimedStatus, hf, hn]

set_option maxRecDepth 4000 in
/-- C4: code-bug evidence: on a `ConnectTimeout` failure, `rag_chain`'s
handler builds `StructuredResponse(response=..., sources_used=True)`, but
`response` and `sources_used` are not model fields, so the serialized error
answer carries the generic default description instead of the timeout
explanation — the claim's requirement that the description field explain the
failure is not met by the code. -/
theorem c4_description_bug :
    (rag_chain ceC4).result =
      PResult.returned (.bareV [serializeSR (mkStructuredResponse
        { response := some chainTimeoutText, sources_used := some true })]) ∧
    (mkStructuredResponse { response := some chainTimeoutText, sources_used := some true }).description =
      defaultSRDescription ∧
    ¬ (defaultSRDescription = chainTimeoutText) :=
  ⟨by decide, rfl, by decide⟩

/-- C5 counterexample: with the rewritten query empty,
`rag_chain_with_multiturn` returns the bare one-element stream `[""]`
without invoking the retriever — not a pair carrying a serialized
`StructuredAnswer`, and not a serialized `StructuredAnswer` at all (every
serialized answer is non-empty). -/
theorem c5_counterexample :
    (rag_chain_with_multiturn ceC5).result = PResult.returned (.bareV [""]) ∧
    (rag_chain_with_multiturn ceC5).retrieverCalled = false ∧
    (¬ ∃ sr ctx, (rag_chain_with_multiturn ceC5).result =
      PResult.returned (.pairV [serializeSR sr] ctx)) ∧
    (¬ ∃ sr, (rag_chain_with_multiturn ceC5).result =
      PResult.returned (.bareV [serializeSR sr])) := by
  have h0 : (rag_chain_with_multiturn ceC5).result = PResult.returned (.bareV [""]) := by decide
  refine ⟨h0, by decide, ?_, ?_⟩
  · rintro ⟨sr, ctx, h⟩
    rw [h0] at h
    simp at h
  · rintro ⟨sr, h⟩
    rw [h0] at h
    simp at h
    exact serializeSR_ne_empty sr h.symm

/-- C5 (amended): whenever the rewritten retrieval query is empty or the
empty-quoted placeholder, `document_search` returns the empty list without
invoking the retriever, and `rag_chain_with_multiturn` short-circuits
without querying the vector store but returns the bare one-element stream
`[""]` rather than a well-formed `StructuredAnswer`. -/
theorem c5_amended_empty_rewrite (se : SearchEnv) (ce : ChainEnv) (s t : String)
    (hs1 : se.enableQueryRewriting = true)
    (hs2 : se.messages.isEmpty = false)
    (hs3 : se.rewriteOutcome (nonSystemPairsFold (pySliceLast (2 * se.historyK) se.messages)) se.content = .ok s)
    (hs4 : emptyQueryCheck s = true)
    (hs5 : se.vsAvailable = true)
    (hc1 : ce.enableQueryRewriting = true)
    (hc2 : (pySliceLast (2 * ce.historyK) ce.chat_history).isEmpty = false)
    (hc3 : ce.rewriteOutcome (nonSystemPairsFold (pySliceLast (2 * ce.historyK) ce.chat_history)) ce.query = .ok t)
    (hc4 : emptyQueryCheck t = true)
    (hc5 : ce.vsAvailable = true) :
    document_search se = { result := PResult.returned [], retrieverCalled := false } ∧
    rag_chain_with_multiturn ce =
      { result := PResult.returned (.bareV [""]), innerExc := none, usedRel := none,
        totalUsed := 0, groundCycles := 0, retrieverCalled := false } := by
  constructor
  · simp [document_search, searchRetrieverQuery, hs1, hs2, hs3, hs4, hs5]
  · simp [rag_chain_with_multiturn, multiturnBody, multiturnRetrieverQuery, hc1, hc2, hc3, hc4, hc5]

/-- C5 witness: the concrete environments `seC5` and `ceC5` (one user turn,
rewriter returning the empty string) satisfy the amended theorem's
hypotheses and conclusion. -/
theorem c5_amended_empty_rewrite_witness :
    seC5.enableQueryRewriting = true ∧ ceC5.enableQueryRewriting = true ∧
    (document_search seC5 = { result := PResult.returned [], retrieverCalled := false } ∧
    rag_chain_with_multiturn ceC5 =
      { result := PResult.returned (.bareV [""]), innerExc := none, usedRel := none,
        totalUsed := 0, groundCycles := 0, retrieverCalled := false }) :=
  ⟨rfl, rfl, c5_amended_empty_rewrite seC5 ceC5 "" "" rfl rfl rfl rfl rfl rfl rfl rfl rfl rfl⟩

/-- C6 counterexample: with the vector store down, `document_search` raises
an `APIError` whose status is 400 (the constructor default) and whose
message carries no uninitialized-store text — not the claimed 500-class
failure. -/
theorem c6_counterexample :
    (document_search seC6).result = PResult.raised (.apiError "Failed to search documents. " 400) ∧
    ¬ (400 = 500) := ⟨by decide, by decide⟩

/-- C6 (amended): with the vector store unavailable, both generation chains
raise the uninitialized-store `APIError` with status 500 internally (their
own catch-all then converts it to an error answer), while `document_search`
raises a bare `ValueError` that its catch-all re-wraps as a status-400
`APIError`. -/
theorem c6_amended_uninit_store (ce : ChainEnv) (se : SearchEnv)
    (h1 : ce.vsAvailable = false) (h2 : se.vsAvailable = false) :
    (rag_chain ce).innerExc = some (.apiError vsUninitMsg 500) ∧
    (rag_chain_with_multiturn ce).innerExc = some (.apiError vsUninitMsg 500) ∧
    document_search se =
      { result := PResult.raised (.apiError ("Failed to search documents. " ++ Exc.str (.valueError "")) 400),
        retrieverCalled := false } := by
  have hm : (rag_chain_with_multiturn ce).innerExc = some (.apiError vsUninitMsg 500) := by
    simp [rag_chain_with_multiturn, h1, handlerOut]
  refine ⟨?_, hm, ?_⟩
  · by_cases he : ce.enableMultiturn = true
    · simpa [rag_chain, he] using hm
    · have he2 : ce.enableMultiturn = false := by simpa using he
      simp [rag_chain, he2, h1, handlerOut]
  · simp [document_search, searchFailure, h2]

/-- C6 witness: the concrete environments `ceC6` and `seC6` (vector store
down) satisfy the amended theorem's hypotheses and conclusion. -/
theorem c6_amended_uninit_store_witness :
    ceC6.vsAvailable = false ∧ seC6.vsAvailable = false ∧
    ((rag_chain ceC6).innerExc = some (.apiError vsUninitMsg 500) ∧
    (rag_chain_with_multiturn ceC6).innerExc = some (.apiError vsUninitMsg 500) ∧
    document_search seC6 =
      { result := PResult.raised (.apiError ("Failed to search documents. " ++ Exc.str (.valueError "")) 400),
        retrieverCalled := false }) :=
  ⟨rfl, rfl, c6_amended_uninit_store ceC6 seC6 rfl rfl⟩

theorem searchRetrieverQuery_trunc (se : SearchEnv) (h : se.enableQueryRewriting = true) :
    searchRetrieverQuery { se with messages := pySliceLast (2 * se.historyK) se.messages } =
      searchRetrieverQuery se := by
  by_cases hm : se.messages = []
  · simp [searchRetrieverQuery, hm, pySliceLast]
  · have htr : pySliceLast (2 * se.historyK) se.messages ≠ [] :=
      fun hc => hm ((pySliceLast_eq_nil_iff _ _).mp hc)
    simp [searchRetrieverQuery, h, hm, htr, pySliceLast_idem]

/-- C7: with empty history the retrieval query is the raw query on both the
search and the multiturn generation paths; with rewriting disabled and
non-empty history it is the prior user turns joined in order with the
current query by `". "` (for the multiturn path, over a history within the
truncation window). -/
theorem c7_query_formulation (se1 se2 : SearchEnv) (ce1 ce2 : ChainEnv)
    (h1 : se1.messages = [])
    (h2 : se2.enableQueryRewriting = false) (h3 : se2.messages.isEmpty = false)
    (h4 : ce1.chat_history = [])
    (h5 : ce2.enableQueryRewriting = false) (h6 : ce2.chat_history.isEmpty = false)
    (h7 : ce2.chat_history.length ≤ 2 * ce2.historyK) :
    searchRetrieverQuery se1 = .ok (some se1.content) ∧
    searchRetrieverQuery se2 =
      .ok (some (String.intercalate ". " (userContents se2.messages ++ [se2.content]))) ∧
    multiturnRetrieverQuery ce1 (pySliceLast (2 * ce1.historyK) ce1.chat_history)
      (nonSystemPairsFold (pySliceLast (2 * ce1.historyK) ce1.chat_history)) =
      .ok (some ce1.query) ∧
    multiturnRetrieverQuery ce2 (pySliceLast (2 * ce2.historyK) ce2.chat_history)
      (nonSystemPairsFold (pySliceLast (2 * ce2.historyK) ce2.chat_history)) =
      .ok (some (String.intercalate ". " (userContents ce2.chat_history ++ [ce2.query]))) := by
  refine ⟨?_, ?_, ?_, ?_⟩
  · simp [searchRetrieverQuery, h1]
  · simp [searchRetrieverQuery, h2, h3]
  · simp [multiturnRetrieverQuery, h4, pySliceLast]
  · rw [pySliceLast_of_le _ _ h7]
    simp [multiturnRetrieverQuery, h5, h6]

/-- C7 witness: at the concrete environments, the empty-history paths hand
back the raw query and the concatenation paths produce `"a. b. c"` from
user turns `"a"`, `"b"` and query `"c"`. -/
theorem c7_query_formulation_witness :
    searchRetrieverQuery baseSearchEnv = .ok (some "q") ∧
    searchRetrieverQuery seC7 = .ok (some "a. b. c") ∧
    multiturnRetrieverQuery baseChainEnv (pySliceLast (2 * baseChainEnv.historyK) baseChainEnv.chat_history)
      (nonSystemPairsFold (pySliceLast (2 * baseChainEnv.historyK) baseChainEnv.chat_history)) =
      .ok (some "q") ∧
    multiturnRetrieverQuery ceC7 (pySliceLast (2 * ceC7.historyK) ceC7.chat_history)
      (nonSystemPairsFold (pySliceLast (2 * ceC7.historyK) ceC7.chat_history)) =
      .ok (some "a. b. c") := by
  have h := c7_query_formulation baseSearchEnv seC7 baseChainEnv ceC7
    rfl rfl rfl rfl rfl rfl (by decide)
  exact ⟨h.1, h.2.1, h.2.2.1, h.2.2.2⟩

/-- C8 counterexample: with window K = 1 and three user turns,
`document_search`'s concatenation path builds the retrieval query from the
full untruncated history (the first turn `"a"` survives), differing from the
run on the pre-truncated history — so truncation is not applied before
formulation on that path. -/
theorem c8_counterexample :
    (document_search seC8).result =
      PResult.returned [{ text := "a. b. c. q", source := "kb" }] ∧
    (document_search seC8trunc).result =
      PResult.returned [{ text := "b. c. q", source := "kb" }] ∧
    ¬ (("a. b. c. q" : String) = "b. c. q") :=
  ⟨by decide, by decide, by decide⟩

/-- C8 (amended): `rag_chain_with_multiturn` truncates the history to the
last `2 * K` messages before all formulation and prompt assembly (its
behaviour is invariant under pre-truncation), and `document_search` does so
only on its rewriting path; its concatenation path uses the full history. -/
theorem c8_amended_truncation (ce : ChainEnv) (se : SearchEnv)
    (h : se.enableQueryRewriting = true) :
    rag_chain_with_multiturn { ce with chat_history := pySliceLast (2 * ce.historyK) ce.chat_history } =
      rag_chain_with_multiturn ce ∧
    document_search { se with messages := pySliceLast (2 * se.historyK) se.messages } =
      document_search se := by
  constructor
  · cases ce
    simp only [rag_chain_with_multiturn]
    rw [pySliceLast_idem]
    rfl
  · have hq := searchRetrieverQuery_trunc se h
    cases se
    simp only [document_search]
    rw [hq]

/-- C8 witness: the truncation-invariance theorem at the concrete
rewriting-enabled environments. -/
theorem c8_amended_truncation_witness :
    seC8w.enableQueryRewriting = true ∧
    (rag_chain_with_multiturn { ceC7 with chat_history := pySliceLast (2 * ceC7.historyK) ceC7.chat_history } =
      rag_chain_with_multiturn ceC7 ∧
    document_search { seC8w with messages := pySliceLast (2 * seC8w.historyK) seC8w.messages } =
      document_search seC8w) :=
  ⟨rfl, c8_amended_truncation ceC7 seC8w rfl⟩

/-- C9 counterexample: for the nemotron model family with one user turn,
the assembled multiturn prompt places the primer message after the
conversation history, so it differs from the claimed sequence (system,
primer, history, context, query) even granting an empty context segment. -/
theorem c9_counterexample :
    multiturnMessages "llama-3.3-nemotron-super-49b" false "RT" [{ role := "user", content := "hi" }] =
      [("system", "detailed thinking off"), ("user", "hi"), ("user", "RT"), ("user", "{question}")] ∧
    ¬ (multiturnMessages "llama-3.3-nemotron-super-49b" false "RT" [{ role := "user", content := "hi" }] =
      claimedPromptSequence "detailed thinking off" [("user", "RT")] [("user", "hi")] []
        ("user", "{question}")) :=
  ⟨by decide, by decide⟩

/-- C9 (amended): the assembled sequence is system instructions first (the
reasoning directive replacing the template for the nemotron family, history
system turns appended), then the non-system conversation history (omitted
entirely by single-turn `rag_chain`), then the optional model-specific
primer, then the user query placeholder; context documents are substituted
into the template placeholder, not appended as messages. -/
theorem c9_amended_prompt_order (model : String) (thinking : Bool) (template : String)
    (hist : List Message) :
    multiturnMessages model thinking template hist =
      ("system", multiturnSystemPrompt model thinking template hist) ::
        (nonSystemPairs hist ++ nemotronPrimer model template ++ [("user", "{question}")]) ∧
    ragMessages model thinking template hist =
      ("system", multiturnSystemPrompt model thinking template hist) ::
        (nemotronPrimer model template ++ [("user", "{question}")]) := by
  refine ⟨?_, rfl⟩
  simp [multiturnMessages, nonSystemPairsFold_eq, List.append_assoc]

/-- C10 counterexample: a multiturn call that completes without any
exception reaching the outer handlers (the empty-rewrite short-circuit) yet
returns a bare stream with no context component, contradicting the claimed
success shape. -/
theorem c10_counterexample :
    (rag_chain_with_multiturn ceC10).result = PResult.returned (.bareV [""]) ∧
    (rag_chain_with_multiturn ceC10).innerExc = none ∧
    ¬ ∃ s ctx, (rag_chain_with_multiturn ceC10).result = PResult.returned (.pairV s ctx) := by
  have h0 : (rag_chain_with_multiturn ceC10).result = PResult.returned (.bareV [""]) := by decide
  refine ⟨h0, by decide, ?_⟩
  rintro ⟨s, ctx, hp⟩
  rw [h0] at hp
  simp at hp

/-- C10 (amended): every chain path that completes without an exception
reaching the outer handlers returns a `(stream, context)` pair — except the
multiturn empty-rewrite short-circuit, which returns the bare `[""]` stream
— and every handler path returns a bare stream, except the unmatched
`ConnectionError` handler, which returns `None`. -/
theorem c10_amended_return_shape (ce1 ce2 : ChainEnv) (h : ce2.enableMultiturn = false) :
    ChainOutOk (rag_chain_with_multiturn ce1) ∧ ChainOutOkStrict (rag_chain ce2) :=
  ⟨rag_chain_with_multiturn_ok ce1, rag_chain_strict ce2 h⟩

/-- C10 witness: the return-shape theorem at concrete environments. -/
theorem c10_amended_return_shape_witness :
    baseChainEnv.enableMultiturn = false ∧
    (ChainOutOk (rag_chain_with_multiturn ceC10) ∧ ChainOutOkStrict (rag_chain baseChainEnv)) :=
  ⟨rfl, c10_amended_return_shape ceC10 baseChainEnv rfl⟩
